import Mathlib

/-!
Verification of the CrackBox stub server (src/src/main.rs) against its
natural-language specification. The source is a single-file axum server with
three routes: `POST /api/v2/rooms` (make_room), `GET /api/v2/rooms/:room_id/play`
(room_upgrade, upgrading to a websocket handled by host_handler or
player_handler), and `GET /api/v2/app-configs/:game_name` (app_configs).
All payloads in the source are hardcoded; the only state is the global
atomic counter `PC`, initialised to 3.
-/

namespace CrackBox

/-- A minimal JSON value model, sufficient for the serde-serialised payloads
of the source: objects keep their field order, exactly as serde's derive
serialises struct fields in declaration order. -/
inductive Json where
  | null : Json
  | bool (b : Bool) : Json
  | num (n : Nat) : Json
  | str (s : String) : Json
  | obj (fields : List (String × Json)) : Json

/-- Top-level field lookup in a JSON object (first occurrence). -/
def Json.getField : Json → String → Option Json
  | .obj fs, k => (fs.find? (fun p => p.1 = k)).map (fun p => p.2)
  | _, _ => none

/-- The top-level keys of a JSON object. -/
def Json.keys : Json → List String
  | .obj fs => fs.map (fun p => p.1)
  | _ => []

/-! ## POST /api/v2/rooms (make_room) -/

/-- `struct RoomResponseBody { host, code, token }` of the source. -/
structure RoomResponseBody where
  host : String
  code : String
  token : String
deriving DecidableEq, Repr

/-- `struct RoomResponse { ok, body }` of the source. -/
structure RoomResponse where
  ok : Bool
  body : RoomResponseBody
deriving DecidableEq, Repr

/-- serde serialisation of `RoomResponseBody`, fields in declaration order. -/
def RoomResponseBody.toJson (b : RoomResponseBody) : Json :=
  .obj [("host", .str b.host), ("code", .str b.code), ("token", .str b.token)]

/-- serde serialisation of `RoomResponse`. -/
def RoomResponse.toJson (r : RoomResponse) : Json :=
  .obj [("ok", .bool r.ok), ("body", r.body.toJson)]

/-- The `make_room` handler: it takes no input, reads no state, and returns
the hardcoded response of the source. -/
def make_room : RoomResponse :=
  { ok := true
    body :=
      { host := "lbssexercise.info"
        code := "OKOK"
        token := "000000000000000000000000" } }

/-- The response of the i-th room-creation call. `make_room` takes no
arguments and touches no state, so every call returns the same value. -/
def make_room_call (_i : Nat) : RoomResponse := make_room

/-! ## The global counter PC -/

/-- The u32 modulus. -/
def u32Mod : Nat := 4294967296

/-- `static PC: AtomicU32 = AtomicU32::new(3)`: the initial counter value. -/
def PC_init : Nat := 3

/-- `PC.fetch_add(1, Ordering::AcqRel)` on a counter holding `c < 2^32`:
returns the old value and stores the wrapping successor. -/
def fetch_add_wrap (c : Nat) : Nat × Nat := (c, (c + 1) % u32Mod)

/-- The counter value before the i-th attach (0-based), starting from
`PC_init` and applying `fetch_add_wrap` once per attach. The value returned
by the i-th `fetch_add` is exactly this state. -/
def pcAfter : Nat → Nat
  | 0 => PC_init
  | n + 1 => (pcAfter n + 1) % u32Mod

/-- The pc value assigned at the i-th attach (0-based): the old counter
value returned by that attach's `fetch_add`. -/
def assignedPc (i : Nat) : Nat := pcAfter i

/-! ## Welcome messages -/

/-- `struct HostWelcomeProfile;` of the source (unit struct). -/
structure HostWelcomeProfile where
deriving DecidableEq, Repr

/-- `struct HostWelcomeResult` of the source. `entities` and `here` are the
unit type `()` in the source; `profile` is `Option<HostWelcomeProfile>`. -/
structure HostWelcomeResult where
  id : Nat
  secret : String
  reconnect : Bool
  device_id : String
  entities : Unit
  here : Unit
  profile : Option HostWelcomeProfile
deriving DecidableEq, Repr

/-- `struct HostWelcome { pc, opcode, result }` of the source. -/
structure HostWelcome where
  pc : Nat
  opcode : String
  result : HostWelcomeResult
deriving DecidableEq, Repr

/-- serde serialisation of `HostWelcomeResult`: field order as declared;
`()` serialises to null, `None` serialises to null, and the unit struct
`HostWelcomeProfile` also serialises to null; `device_id` is renamed to
`deviceId`. -/
def HostWelcomeResult.toJson (r : HostWelcomeResult) : Json :=
  .obj
    [ ("id", .num r.id)
    , ("secret", .str r.secret)
    , ("reconnect", .bool r.reconnect)
    , ("deviceId", .str r.device_id)
    , ("entities", .null)
    , ("here", .null)
    , ("profile", match r.profile with | none => .null | some _ => .null) ]

/-- serde serialisation of `HostWelcome`. -/
def HostWelcome.toJson (w : HostWelcome) : Json :=
  .obj [("pc", .num w.pc), ("opcode", .str w.opcode), ("result", w.result.toJson)]

/-- The welcome struct built by `host_handler` when the fetched counter
value is `v`: all fields other than `pc` are hardcoded in the source. -/
def welcomePayload (v : Nat) : HostWelcome :=
  { pc := v
    opcode := "client/welcome"
    result :=
      { id := 1
        secret := "000000000000000000000000"
        reconnect := false
        device_id := "0000000000.0000000000000000000000"
        entities := ()
        here := ()
        profile := none } }

/-- The attach step of `host_handler`: fetch-and-add the counter, build the
welcome, return it together with the new counter state. -/
def host_handler_attach (c : Nat) : HostWelcome × Nat :=
  let fa := fetch_add_wrap c
  (welcomePayload fa.1, fa.2)

/-- The attach step of `player_handler`: textually identical to the host
one in the source (same hardcoded fields, same counter fetch). -/
def player_handler_attach (c : Nat) : HostWelcome × Nat :=
  let fa := fetch_add_wrap c
  (welcomePayload fa.1, fa.2)

/-! ## The receive loop after the welcome -/

/-- One result of `ws.recv().await`: a message, a transport error
(`Some(Err(_))` in the source), or a closed stream (`None` in the source). -/
inductive RecvResult where
  | msg (m : String) : RecvResult
  | err : RecvResult
  | ended : RecvResult
deriving DecidableEq, Repr

/-- How a handler run terminates: still blocked waiting for input, crashed
by an `unwrap` panic, or a clean Closed transition (which the source has no
code path for). -/
inductive HandlerEnd where
  | waiting : HandlerEnd
  | panicked : HandlerEnd
  | closedCleanly : HandlerEnd
deriving DecidableEq, Repr

/-- The source's `loop { ws.recv().await.unwrap().unwrap() }` run against a
finite prefix of receive results: messages are discarded and the loop
continues; an error or end of stream panics via `unwrap`; an exhausted
prefix leaves the loop blocked on the next `recv`. -/
def recv_loop : List RecvResult → HandlerEnd
  | [] => .waiting
  | .msg _ :: rest => recv_loop rest
  | .err :: _ => .panicked
  | .ended :: _ => .panicked

/-- A full run of `host_handler` from counter state `c` against receive
results `input`: the messages sent (as serialised JSON, in order) and how
the run ends. The source sends the single welcome and then only receives. -/
def host_run (c : Nat) (input : List RecvResult) : List Json × HandlerEnd :=
  (([(host_handler_attach c).1.toJson]), recv_loop input)

/-- A full run of `player_handler`, same shape as `host_run`. -/
def player_run (c : Nat) (input : List RecvResult) : List Json × HandlerEnd :=
  (([(player_handler_attach c).1.toJson]), recv_loop input)

/-! ## GET /api/v2/rooms/:room_id/play (room_upgrade) -/

/-- `enum RoomRole` of the source. -/
inductive RoomRole where
  | Player : RoomRole
  | Host : RoomRole
deriving DecidableEq, Repr

/-- serde deserialisation of `RoomRole` from its renamed string forms. -/
def parseRoomRole : String → Option RoomRole
  | "player" => some .Player
  | "host" => some .Host
  | _ => none

/-- `struct RoomQuery` of the source: the four required query parameters
(`user-id` is the serde rename of `user_id`). -/
structure RoomQuery where
  role : RoomRole
  name : String
  format : String
  user_id : String
deriving DecidableEq, Repr

/-- First value bound to key `k` in the query-parameter list. -/
def lookupParam (params : List (String × String)) (k : String) : Option String :=
  (params.find? (fun p => p.1 = k)).map (fun p => p.2)

/-- axum's `Query<RoomQuery>` extractor: succeeds only when all four
required fields are present and `role` is one of the two renamed variants;
any failure is an extractor rejection. -/
def parseRoomQuery (params : List (String × String)) : Option RoomQuery :=
  match lookupParam params "role" with
  | none => none
  | some rs =>
    match parseRoomRole rs with
    | none => none
    | some r =>
      match lookupParam params "name" with
      | none => none
      | some n =>
        match lookupParam params "format" with
        | none => none
        | some f =>
          match lookupParam params "user-id" with
          | none => none
          | some u => some { role := r, name := n, format := f, user_id := u }

/-- The HTTP-level outcome of `room_upgrade`. The type is wide enough to
express the statuses the specification names (404, 401), though the source
has no code path producing them: its only rejection is the Query
extractor's 400. -/
inductive UpgradeResponse where
  | badRequest : UpgradeResponse
  | notFound : UpgradeResponse
  | unauthorized : UpgradeResponse
  | upgradeHost : UpgradeResponse
  | upgradePlayer : UpgradeResponse
deriving DecidableEq, Repr

/-- The `room_upgrade` handler: the Query extractor either rejects (400) or
yields a `RoomQuery`, and the handler upgrades according to the role. The
path parameter `room_id` is only logged; no registry lookup and no token
check exist in the source. -/
def room_upgrade (room_id : String) (params : List (String × String)) : UpgradeResponse :=
  let _ := room_id
  match parseRoomQuery params with
  | none => .badRequest
  | some q =>
    match q.role with
    | .Host => .upgradeHost
    | .Player => .upgradePlayer

/-! ## GET /api/v2/app-configs/:game_name (app_configs) -/

/-- `struct AppConfigsSettings { server_url }` (serialised as `serverUrl`). -/
structure AppConfigsSettings where
  server_url : String
deriving DecidableEq, Repr

/-- `struct AppConfigsBody { settings }` of the source. -/
structure AppConfigsBody where
  settings : AppConfigsSettings
deriving DecidableEq, Repr

/-- `struct AppConfigs { ok, body }` of the source. -/
structure AppConfigs where
  ok : Bool
  body : AppConfigsBody
deriving DecidableEq, Repr

/-- The `app_configs` handler: `assert_eq!(game_name, "antique-freak")`
panics (modelled as `none`) for any other path parameter; otherwise the
hardcoded response is returned. -/
def app_configs (game_name : String) : Option AppConfigs :=
  if game_name = "antique-freak" then
    some { ok := true, body := { settings := { server_url := "lbssexercise.info" } } }
  else
    none

/-! ## Helper lemmas -/

/-- Closed form of the counter sequence: the state before the i-th attach
is the initial value plus i, wrapped mod 2^32. -/
theorem pcAfter_eq (i : Nat) : pcAfter i = (PC_init + i) % u32Mod := by
  induction i with
  | zero =>
    show PC_init = (PC_init + 0) % u32Mod
    norm_num [PC_init, u32Mod]
  | succ n ih =>
    show (pcAfter n + 1) % u32Mod = (PC_init + (n + 1)) % u32Mod
    rw [ih, Nat.mod_add_mod, Nat.add_assoc]

/-- The receive loop of the handlers ends only blocked or panicked, never
in a clean close. -/
theorem recv_loop_cases (input : List RecvResult) :
    recv_loop input = HandlerEnd.waiting ∨ recv_loop input = HandlerEnd.panicked := by
  induction input with
  | nil => exact Or.inl rfl
  | cons hd tl ih =>
    cases hd with
    | msg m => simpa [recv_loop] using ih
    | err => exact Or.inr rfl
    | ended => exact Or.inr rfl

/-! ## Claim theorems -/

/-- Claim C1, counterexample: a request for room code ZZZZ (the source has
no room registry, so every room code is unknown) with host role and no
token at all is upgraded, not rejected with 404 or 401 as the claim
states. -/
theorem C1_counterexample :
    room_upgrade "ZZZZ" [("role", "host"), ("name", "n"), ("format", "f"), ("user-id", "u")]
        = UpgradeResponse.upgradeHost ∧
      UpgradeResponse.upgradeHost ≠ UpgradeResponse.notFound ∧
      UpgradeResponse.upgradeHost ≠ UpgradeResponse.unauthorized :=
  ⟨rfl, by decide, by decide⟩

/-- Claim C1, amended: room_upgrade rejects with 400 exactly when the query
parameters fail to deserialise; it never answers 404 or 401, and the
outcome is independent of the room code. -/
theorem C1_behavior (room_id room_id2 : String) (params : List (String × String)) :
    room_upgrade room_id params ≠ UpgradeResponse.notFound ∧
      room_upgrade room_id params ≠ UpgradeResponse.unauthorized ∧
      (room_upgrade room_id params = UpgradeResponse.badRequest ↔ parseRoomQuery params = none) ∧
      room_upgrade room_id params = room_upgrade room_id2 params := by
  unfold room_upgrade
  cases h : parseRoomQuery params with
  | none => simp
  | some q => cases hr : q.role <;> simp [hr]

/-- Claim C2, counterexample: the 0th and 1st room-creation calls are
distinct calls yet return the same room code, since make_room is a
hardcoded constant. -/
theorem C2_counterexample :
    (make_room_call 0).body.code = (make_room_call 1).body.code ∧ (0 : Nat) ≠ 1 :=
  ⟨rfl, by decide⟩

/-- Claim C2, amended: every successful room-creation call returns the same
hardcoded room code OKOK, so any two calls return equal, not distinct,
codes. -/
theorem C2_all_codes_equal (i j : Nat) :
    (make_room_call i).body.code = "OKOK" ∧
      (make_room_call i).body.code = (make_room_call j).body.code :=
  ⟨rfl, rfl⟩

/-- Claim C3, counterexample: the first welcome sent in a fresh process has
top-level opcode client/welcome, but no top-level participantId field and
no top-level reconnect field. -/
theorem C3_counterexample :
    (host_handler_attach PC_init).1.toJson.getField "opcode"
        = some (Json.str "client/welcome") ∧
      (host_handler_attach PC_init).1.toJson.getField "participantId" = none ∧
      (host_handler_attach PC_init).1.toJson.getField "reconnect" = none :=
  ⟨rfl, rfl, rfl⟩

/-- Claim C3, amended: the first (and only) server-to-client message of
either handler carries top-level fields pc, opcode and result; opcode is
client/welcome and the counter value is under pc; there is no top-level
participantId field, and reconnect is a boolean nested inside result, not
top-level. -/
theorem C3_welcome_shape (c : Nat) (input : List RecvResult) :
    (host_run c input).1.head? = some (welcomePayload c).toJson ∧
      (player_run c input).1.head? = some (welcomePayload c).toJson ∧
      (welcomePayload c).toJson.getField "opcode" = some (Json.str "client/welcome") ∧
      (welcomePayload c).toJson.getField "pc" = some (Json.num c) ∧
      (welcomePayload c).toJson.getField "participantId" = none ∧
      (welcomePayload c).toJson.getField "reconnect" = none ∧
      ((welcomePayload c).toJson.getField "result").map (fun r => r.getField "reconnect")
        = some (some (Json.bool false)) :=
  ⟨rfl, rfl, rfl, rfl, rfl, rfl, rfl⟩

/-- Claim C4, counterexample: in a fresh process the host attaches first
and then a player attaches; the player's welcome carries the counter value
4 in its pc field and the hardcoded id 1 in result.id, while no
participantId field exists at all — not the participantId 2 the claim
states. -/
theorem C4_counterexample :
    (player_handler_attach (host_handler_attach PC_init).2).1.result.id = 1 ∧
      (player_handler_attach (host_handler_attach PC_init).2).1.pc = 4 ∧
      (player_handler_attach (host_handler_attach PC_init).2).1.toJson.getField "participantId"
        = none :=
  ⟨rfl, rfl, rfl⟩

/-- Claim C4, amended: each attach fetches a fresh counter value into the
welcome's pc field (3 for the first attach of a fresh process, 4 for the
second), while the id inside result is hardcoded to 1 for host and player
alike. -/
theorem C4_pc_assignment (c : Nat) :
    (host_handler_attach c).1.pc = c ∧
      (host_handler_attach c).2 = (c + 1) % u32Mod ∧
      (host_handler_attach c).1.result.id = 1 ∧
      (player_handler_attach c).1.pc = c ∧
      (player_handler_attach c).2 = (c + 1) % u32Mod ∧
      (player_handler_attach c).1.result.id = 1 ∧
      (host_handler_attach PC_init).1.pc = 3 ∧
      (player_handler_attach (host_handler_attach PC_init).2).1.pc = 4 :=
  ⟨rfl, rfl, rfl, rfl, rfl, rfl, rfl, rfl⟩

/-- Claim C5: every welcome either handler ever builds has its reconnect
field (inside result) equal to false. -/
theorem C5_reconnect_false (c : Nat) :
    (host_handler_attach c).1.result.reconnect = false ∧
      (player_handler_attach c).1.result.reconnect = false :=
  ⟨rfl, rfl⟩

/-- Claim C6, counterexample: the wrapping u32 counter reuses values and is
not monotonically increasing across a process lifetime: attach 0 and
attach 2^32 both receive pc value 3, and attach 4294967292 receives
4294967295 while the later attach 4294967293 receives 0. -/
theorem C6_counterexample :
    assignedPc 0 = 3 ∧
      assignedPc 4294967296 = 3 ∧
      (0 : Nat) ≠ 4294967296 ∧
      assignedPc 4294967292 = 4294967295 ∧
      assignedPc 4294967293 = 0 := by
  refine ⟨rfl, ?_, by decide, ?_, ?_⟩ <;>
    rw [assignedPc, pcAfter_eq] <;> norm_num [PC_init, u32Mod]

/-- Claim C6, amended: the i-th attach receives pc value (3 + i) mod 2^32;
assigned values are strictly increasing while the counter has not wrapped
(all attach indices below 2^32 - 3) and pairwise distinct within any
window of fewer than 2^32 consecutive attaches, but they wrap and repeat
with period 2^32. -/
theorem C6_assigned_values (i j : Nat) :
    assignedPc i = (PC_init + i) % u32Mod ∧
      (i < j → j < u32Mod - PC_init → assignedPc i < assignedPc j) ∧
      (i < j → j < i + u32Mod → assignedPc i ≠ assignedPc j) := by
  refine ⟨pcAfter_eq i, ?_, ?_⟩
  · intro hij hj
    rw [assignedPc, assignedPc, pcAfter_eq, pcAfter_eq]
    have hj2 : PC_init + j < u32Mod := by omega
    have hi2 : PC_init + i < u32Mod := by omega
    rw [Nat.mod_eq_of_lt hi2, Nat.mod_eq_of_lt hj2]
    omega
  · intro hij hwin heq
    rw [assignedPc, assignedPc, pcAfter_eq, pcAfter_eq] at heq
    have hmod : (PC_init + i) ≡ (PC_init + j) [MOD u32Mod] := heq
    have hmod2 : i ≡ j [MOD u32Mod] := hmod.add_left_cancel' PC_init
    have hdvd : u32Mod ∣ j - i := (Nat.modEq_iff_dvd' (Nat.le_of_lt hij)).mp hmod2
    have hle : u32Mod ≤ j - i := Nat.le_of_dvd (by omega) hdvd
    omega

/-- Claim C6, witness: the amended statement instantiated at attaches 0
and 1. -/
theorem C6_assigned_values_witness :
    assignedPc 0 = (PC_init + 0) % u32Mod ∧
      assignedPc 0 < assignedPc 1 ∧ assignedPc 0 ≠ assignedPc 1 := by
  obtain ⟨h1, h2, h3⟩ := C6_assigned_values 0 1
  exact ⟨h1, h2 (by decide) (by norm_num [u32Mod, PC_init]),
    h3 (by decide) (by norm_num [u32Mod])⟩

/-- Claim C7, counterexample: the room-creation response has top-level keys
ok and body only, body has keys host, code and token, and no field named
roomCode or joinToken exists at the top level. -/
theorem C7_counterexample :
    CrackBox.make_room.toJson.getField "roomCode" = none ∧
      CrackBox.make_room.toJson.getField "joinToken" = none ∧
      CrackBox.make_room.toJson.keys = ["ok", "body"] ∧
      CrackBox.make_room.body.toJson.keys = ["host", "code", "token"] :=
  ⟨rfl, rfl, rfl, rfl⟩

/-- Claim C7, amended: every room-creation response is the hardcoded
payload with fields ok and body, the room code under body.code and the
join token under body.token — not under fields named roomCode and
joinToken. -/
theorem C7_response_shape (i : Nat) :
    (make_room_call i).toJson =
      Json.obj
        [ ("ok", Json.bool true)
        , ("body", Json.obj
            [ ("host", Json.str "lbssexercise.info")
            , ("code", Json.str "OKOK")
            , ("token", Json.str "000000000000000000000000") ]) ] := rfl

/-- Claim C8: after the single welcome each handler sends nothing more, the
receive loop keeps looping on messages, panics via unwrap on a receive
error or on stream end, and never reaches a clean Closed transition. -/
theorem C8_single_send_no_clean_close (c : Nat) (input rest : List RecvResult) (m : String) :
    (host_run c input).1 = [(welcomePayload c).toJson] ∧
      (player_run c input).1 = [(welcomePayload c).toJson] ∧
      (host_run c input).2 ≠ HandlerEnd.closedCleanly ∧
      (player_run c input).2 ≠ HandlerEnd.closedCleanly ∧
      recv_loop [] = HandlerEnd.waiting ∧
      recv_loop (RecvResult.msg m :: rest) = recv_loop rest ∧
      recv_loop (RecvResult.err :: rest) = HandlerEnd.panicked ∧
      recv_loop (RecvResult.ended :: rest) = HandlerEnd.panicked := by
  refine ⟨rfl, rfl, ?_, ?_, rfl, rfl, rfl, rfl⟩ <;>
    rcases recv_loop_cases input with h | h <;> simp [host_run, player_run, h]

/-- Claim C9: app_configs panics on its assertion for any game name other
than antique-freak, and returns the hardcoded settings payload exactly for
antique-freak. -/
theorem C9_app_configs (g : String) :
    (g ≠ "antique-freak" → app_configs g = none) ∧
      app_configs "antique-freak" =
        some { ok := true, body := { settings := { server_url := "lbssexercise.info" } } } := by
  refine ⟨fun h => ?_, rfl⟩
  simp [app_configs, h]

/-- Claim C9, witness: the theorem instantiated at the game name
other-game (panic) and at antique-freak (success). -/
theorem C9_app_configs_witness :
    app_configs "other-game" = none ∧
      app_configs "antique-freak" =
        some { ok := true, body := { settings := { server_url := "lbssexercise.info" } } } :=
  ⟨(C9_app_configs "other-game").1 (by decide), (C9_app_configs "antique-freak").2⟩

/-- Claim C10: host_handler and player_handler are the same function of the
counter state; their welcomes agree on every field except (possibly) pc,
and in particular a player's welcome carries the same hardcoded secret and
the same id 1 as a host's. -/
theorem C10_host_player_identical (c d : Nat) :
    host_handler_attach c = player_handler_attach c ∧
      (host_handler_attach c).1.opcode = (player_handler_attach d).1.opcode ∧
      (host_handler_attach c).1.result = (player_handler_attach d).1.result ∧
      (player_handler_attach d).1.result.secret = "000000000000000000000000" ∧
      (player_handler_attach d).1.result.id = 1 ∧
      (host_handler_attach c).1.result.id = 1 :=
  ⟨rfl, rfl, rfl, rfl, rfl, rfl⟩

end CrackBox
